import Mathlib

/-!
Shallow embedding of the tsuru-autoscale repository (alarm cooldown logic and
the wizard composite-expression generator), with theorems settling the
specification claims about it.

Conventions of the embedding:
* Go `time.Time` instants are integers: nanoseconds since the zero time
  (January 1, year 1).  The zero instant is `0`, and `Time.IsZero` is `= 0`.
* Go `time.Duration` values are integers (nanoseconds); `time.Time.Sub`
  saturates at the int64 bounds, exactly as documented for Go.
* Go maps used only as fixed-key records (`Envs`) are association lists in
  insertion order.
* Fallible Go functions return `Except String` or pair their result with an
  `Option String` error.
-/

namespace Tsuru

/-- Largest value of Go's int64-backed `time.Duration`. -/
def maxDuration : Int := 9223372036854775807

/-- Smallest value of Go's int64-backed `time.Duration`. -/
def minDuration : Int := -9223372036854775808

/-- Go `time.Time.Sub`: the difference `t - u`, saturated at the
`time.Duration` (int64) bounds, as documented for the Go standard library. -/
def timeSub (t u : Int) : Int :=
  if t - u > maxDuration then maxDuration
  else if t - u < minDuration then minDuration
  else t - u

/-- Wrap an integer into the int64 range, as Go arithmetic on
`time.Duration` does on overflow. -/
def int64Wrap (x : Int) : Int :=
  (x + 9223372036854775808) % 18446744073709551616 - 9223372036854775808

/-- Modelled from the spec: the Event record (alarm/event.go is not under
src/; fields per spec section 3).  `startTime`/`endTime` are instants,
`endTime = 0` (the zero time) means the remediation is still in flight. -/
structure Event where
  eventType : String
  startTime : Int
  endTime : Int
  successful : Bool
  error : String
deriving Repr, DecidableEq

/-- The zero value of the Go `Event` struct, which `lastScaleEvent` yields
together with `mgo.ErrNotFound` when no event exists. -/
def zeroEvent : Event :=
  { eventType := "", startTime := 0, endTime := 0, successful := false, error := "" }

/-- Result of `lastScaleEvent(config)` (alarm/event.go, not under src/):
either the most recent event, `mgo.ErrNotFound`, or another database error.
`shouldWait` is parametric in this lookup result. -/
inductive LookupResult where
  | found (e : Event)
  | notFound
  | dbError (msg : String)
deriving Repr, DecidableEq

/-- Embedding of `shouldWait` (src/alarm/auto_scale.go, lines 118-132).
`now` stands for `time.Now().UTC()` and `lookup` for the result of
`lastScaleEvent(config)`.  The Go control flow: a database error other than
not-found is returned; a found event with zero `EndTime` forces waiting;
otherwise (found with nonzero `EndTime`, or not-found with the zero-valued
event) the elapsed time since `EndTime` is compared with the wait period. -/
def shouldWait (lookup : LookupResult) (now waitPeriod : Int) : Except String Bool :=
  match lookup with
  | .dbError msg => .error msg
  | .found lastEvent =>
    if lastEvent.endTime = 0 then .ok true
    else if timeSub now lastEvent.endTime > waitPeriod then .ok false
    else .ok true
  | .notFound =>
    if timeSub now zeroEvent.endTime > waitPeriod then .ok false
    else .ok true

/-- Claim C1: if the most recent event for the alarm is still in flight
(zero `EndTime`), `shouldWait` returns true with no error, for every current
time and every wait period. -/
theorem shouldWait_inflight_blocks (e : Event) (now waitPeriod : Int)
    (h : e.endTime = 0) :
    shouldWait (.found e) now waitPeriod = .ok true := by
  simp [shouldWait, h]

theorem shouldWait_inflight_blocks_witness :
    shouldWait (.found { zeroEvent with startTime := 7 }) 123456789 0 = .ok true :=
  shouldWait_inflight_blocks { zeroEvent with startTime := 7 } 123456789 0 rfl

/-- Claim C2: for a closed most recent event (nonzero `EndTime`), with the
elapsed time `now - EndTime` representable as a Go `time.Duration`,
`shouldWait` returns false exactly when the elapsed time strictly exceeds
the wait period; in particular it returns true when the elapsed time equals
the wait period. -/
theorem shouldWait_closed_event (e : Event) (now waitPeriod : Int)
    (hend : e.endTime ≠ 0)
    (hlo : minDuration ≤ now - e.endTime)
    (hhi : now - e.endTime ≤ maxDuration) :
    (shouldWait (.found e) now waitPeriod = .ok false ↔ now - e.endTime > waitPeriod)
      ∧ (now - e.endTime = waitPeriod → shouldWait (.found e) now waitPeriod = .ok true) := by
  have hsub : timeSub now e.endTime = now - e.endTime := by
    unfold timeSub
    rw [if_neg (by omega), if_neg (by omega)]
  constructor
  · constructor
    · intro hfalse
      by_contra hle
      simp [shouldWait, hend, hsub, hle] at hfalse
    · intro hgt
      simp [shouldWait, hend, hsub, hgt]
  · intro heq
    simp [shouldWait, hend, hsub, heq]

theorem shouldWait_closed_event_witness :
    (shouldWait (.found { zeroEvent with endTime := 50 }) 100 40 = .ok false ↔
        (100 : Int) - 50 > 40)
      ∧ ((100 : Int) - 50 = 40 →
        shouldWait (.found { zeroEvent with endTime := 50 }) 100 40 = .ok true) :=
  shouldWait_closed_event { zeroEvent with endTime := 50 } 100 40
    (by decide) (by decide) (by decide)

/-- Claim C6: with no prior event in the store (`mgo.ErrNotFound`),
`shouldWait` returns false with no error.  The hypotheses pin down any real
execution: the current time is at least `maxDuration` nanoseconds after the
zero time (true since the year 293), and the wait period is below the
maximal `time.Duration`; under them the saturated difference from the
zero-valued event's `EndTime` always exceeds the wait period. -/
theorem shouldWait_no_prior_event (now waitPeriod : Int)
    (hnow : maxDuration ≤ now)
    (hwait : waitPeriod < maxDuration) :
    shouldWait .notFound now waitPeriod = .ok false := by
  have hsub : timeSub now zeroEvent.endTime > waitPeriod := by
    unfold timeSub zeroEvent
    simp only
    split
    · exact hwait
    · split <;> omega
  simp [shouldWait, hsub]

theorem shouldWait_no_prior_event_witness :
    shouldWait .notFound 9223372036854775807 30000000000 = .ok false :=
  shouldWait_no_prior_event 9223372036854775807 30000000000
    (by decide) (by decide)

/-- The built-in `units` pseudo-datasource expression template
(src/unnamed/part_000, line 22; braces written with hex escapes). -/
def unitsExpression : String :=
  "!units.lock.Locked && units.units.map(function(unit)\x7b if (unit.ProcessName === \"\x7bprocess\x7d\") \x7breturn 1\x7d else \x7breturn 0\x7d\x7d).reduce(function(c, p) \x7b return c + p \x7d) > \x7bminUnits\x7d"

/-- The built-in generic metric expression template
(src/unnamed/part_000, line 23). -/
def defaultExpression : String :=
  "\x7bmetric\x7d.aggregations.range.buckets[0].date.buckets[\x7bmetric\x7d.aggregations.range.buckets[0].date.buckets.length - 1].\x7baggregator\x7d.value \x7boperator\x7d \x7bvalue\x7d"

/-- ScaleAction (src/unnamed/part_000, lines 52-59).  `wait` is a Go
`time.Duration` (int64 nanosecond count as configured). -/
structure ScaleAction where
  aggregator : String
  metric : String
  operator : String
  value : String
  step : String
  wait : Int
deriving Repr, DecidableEq

/-- The zero value of the Go `ScaleAction` struct. -/
def zeroScaleAction : ScaleAction :=
  { aggregator := "", metric := "", operator := "", value := "", step := "", wait := 0 }

/-- AutoScale specification (src/unnamed/part_000, lines 31-37). -/
structure AutoScale where
  name : String
  scaleUp : ScaleAction
  scaleDown : ScaleAction
  minUnits : Int
  process : String
deriving Repr, DecidableEq

/-- The wizard-facing `alarm.Alarm` record (fields as constructed at
src/unnamed/part_000, lines 137-146).  `instanceName` stands for the Go
field `Instance`; the `Envs` map is an association list in insertion
order. -/
structure Alarm where
  name : String
  expression : String
  enabled : Bool
  wait : Int
  actions : List String
  instanceName : String
  dataSources : List String
  envs : List (String × String)
deriving Repr, DecidableEq

/-- First matching replacement pattern at the head of `s`, in argument
order, as Go's `strings.Replacer` tries them; yields the replacement and
the remaining input. -/
def lookupPat (ps : List (List Char × List Char)) (s : List Char) :
    Option (List Char × List Char) :=
  match ps with
  | [] => none
  | (pat, rep) :: rest =>
    if pat.isEmpty then lookupPat rest s
    else if pat.isPrefixOf s then some (rep, s.drop pat.length)
    else lookupPat rest s

/-- Fuelled scan of Go's `strings.Replacer.Replace`: at each position the
first matching pattern (argument order) is replaced, without overlapping
matches.  One unit of fuel per consumed input character suffices. -/
def replaceFuel (ps : List (List Char × List Char)) : Nat → List Char → List Char
  | _, [] => []
  | 0, s => s
  | Nat.succ n, c :: rest =>
    match lookupPat ps (c :: rest) with
    | some (rep, rest2) => rep ++ replaceFuel ps n rest2
    | none => c :: replaceFuel ps n rest

/-- Go `strings.NewReplacer(pairs...).Replace(s)`. -/
def Replace (pairs : List (String × String)) (s : String) : String :=
  String.mk (replaceFuel (pairs.map fun p => (p.1.data, p.2.data)) s.data.length s.data)

/-- Go `strings.Join(elems, sep)`. -/
def stringsJoin (elems : List String) (sep : String) : String :=
  match elems with
  | [] => ""
  | x :: xs => xs.foldl (fun acc s => acc ++ sep ++ s) x

/-- Embedding of `newScaleAction` (src/unnamed/part_000, lines 85-148)
up to the final `alarm.NewAlarm` call: the alarm record it builds.
`dsGet` stands for `datasource.Get` restricted to the expression template
(a `none` result covers both a lookup error and a missing instance, whose
error the source discards).  The Go statement `Wait: action.Wait *
time.Second` multiplies two int64 durations, hence the wrap. -/
def newScaleAction (dsGet : String → Option String) (scaleConfig : AutoScale)
    (kind : String) : Alarm :=
  let action :=
    if kind == "scale_up" then scaleConfig.scaleUp
    else if kind == "scale_down" then scaleConfig.scaleDown
    else zeroScaleAction
  let datasources : List String :=
    if kind == "scale_up" then [action.metric]
    else if kind == "scale_down" then ["units", action.metric]
    else []
  let name :=
    if scaleConfig.process == "" then kind ++ "_" ++ scaleConfig.name
    else kind ++ "_" ++ scaleConfig.name ++ "_" ++ scaleConfig.process
  let processName := if scaleConfig.process == "" then "web" else scaleConfig.process
  let aggregator := if action.aggregator == "" then "max" else action.aggregator
  let expParts := datasources.map fun d =>
    match dsGet d with
    | none => if d == "units" then unitsExpression else defaultExpression
    | some t =>
      if t == "" then (if d == "units" then unitsExpression else defaultExpression)
      else t
  let expression := stringsJoin expParts " && "
  let envs := [("step", action.step), ("process", processName), ("aggregator", aggregator)]
  { name := name
    expression := Replace
      [("\x7baggregator\x7d", aggregator),
       ("\x7boperator\x7d", action.operator),
       ("\x7bvalue\x7d", action.value),
       ("\x7bminUnits\x7d", toString scaleConfig.minUnits),
       ("\x7bmetric\x7d", action.metric)] expression
    enabled := true
    wait := int64Wrap (action.wait * 1000000000)
    actions := [kind]
    instanceName := scaleConfig.name
    dataSources := datasources
    envs := envs }

/-- The persistent state the wizard operations touch: the alarms collection
and the wizard (autoscale specification) collection. -/
structure Store where
  alarms : List Alarm
  wizards : List AutoScale
deriving Repr, DecidableEq

/-- Modelled from the spec: `alarm.FindAlarmByName` (alarm/alarm.go, not
under src/) looks an alarm up by its unique name, with a not-found error
when missing. -/
def FindAlarmByName (als : List Alarm) (n : String) : Option Alarm :=
  als.find? fun al => al.name == n

/-- Modelled from the spec: `alarm.NewAlarm` (alarm/alarm.go, not under
src/) validates the alarm and persists it; on failure nothing is
persisted.  The validation outcome is the parameter `ok`. -/
def NewAlarmOp (ok : Alarm → Bool) (al : Alarm) (als : List Alarm) :
    List Alarm × Option String :=
  if ok al then (als ++ [al], none)
  else (als, some ("NewAlarm failed: " ++ al.name))

/-- Embedding of `New` (src/unnamed/part_000, lines 62-83): clamp a
non-positive `MinUnits` to 1, create the scale-up then the scale-down
alarm (returning the error of a failed creation with the store as it then
stands), and finally insert the clamped specification into the wizard
collection.  A `db.Conn` failure (which the source turns into a nil error
with nothing inserted) is not modelled. -/
def New (dsGet : String → Option String) (ok : Alarm → Bool) (a : AutoScale)
    (s : Store) : Store × Option String :=
  let a' := if a.minUnits ≤ 0 then { a with minUnits := 1 } else a
  match NewAlarmOp ok (newScaleAction dsGet a' "scale_up") s.alarms with
  | (als, some e) => ({ s with alarms := als }, some e)
  | (als, none) =>
    match NewAlarmOp ok (newScaleAction dsGet a' "scale_down") als with
    | (als2, some e) => ({ s with alarms := als2 }, some e)
    | (als2, none) => ({ alarms := als2, wizards := s.wizards ++ [a'] }, none)

/-- The alarm names derived from an autoscale specification,
`AutoScale.alarms` (src/unnamed/part_000, lines 180-190). -/
def AutoScale.alarms (a : AutoScale) : List String :=
  if a.process == "" then
    ["scale_up_" ++ a.name, "scale_down_" ++ a.name]
  else
    ["scale_up_" ++ a.name ++ "_" ++ a.process,
     "scale_down_" ++ a.name ++ "_" ++ a.process]

/-- Loop body of `removeAlarms` (src/unnamed/part_000, lines 192-206):
look each derived alarm up (stopping with an error if one is missing) and
remove it.  `alarm.RemoveAlarm` is modelled from the spec (alarm/alarm.go
is not under src/) as deletion by the alarm's unique name. -/
def removeAlarmsLoop : List String → List Alarm → List Alarm × Option String
  | [], als => (als, none)
  | n :: rest, als =>
    match FindAlarmByName als n with
    | none => (als, some ("alarm " ++ n ++ " not found"))
    | some al => removeAlarmsLoop rest (als.filter fun b => !(b.name == al.name))

/-- Embedding of `removeAlarms` (src/unnamed/part_000, lines 192-206). -/
def removeAlarms (autoScale : AutoScale) (als : List Alarm) :
    List Alarm × Option String :=
  removeAlarmsLoop autoScale.alarms als

/-- Embedding of `FindByName` (src/unnamed/part_000, lines 168-178)
restricted to the lookup it performs: the first specification with the
given name, if any. -/
def FindByName (ws : List AutoScale) (n : String) : Option AutoScale :=
  ws.find? fun w => w.name == n

/-- Embedding of `Update` (src/unnamed/part_000, lines 287-316): find the
old specification, clamp a non-positive `MinUnits` to 1, remove the old
derived alarms, create the two new alarms, and replace the stored
specification. -/
def Update (dsGet : String → Option String) (ok : Alarm → Bool) (a : AutoScale)
    (s : Store) : Store × Option String :=
  match FindByName s.wizards a.name with
  | none => (s, some ("wizard " ++ a.name ++ " not found"))
  | some old =>
    let a' := if a.minUnits ≤ 0 then { a with minUnits := 1 } else a
    match removeAlarms old s.alarms with
    | (als, some e) => ({ s with alarms := als }, some e)
    | (als, none) =>
      match NewAlarmOp ok (newScaleAction dsGet a' "scale_up") als with
      | (als2, some e) => ({ s with alarms := als2 }, some e)
      | (als2, none) =>
        match NewAlarmOp ok (newScaleAction dsGet a' "scale_down") als2 with
        | (als3, some e) => ({ s with alarms := als3 }, some e)
        | (als3, none) =>
          ({ alarms := als3,
             wizards := s.wizards.map fun w => if w.name == a'.name then a' else w },
           none)

/-- Per-alarm check of `AutoScale.Enabled`
(src/unnamed/part_000, lines 273-284): a missing alarm or a disabled alarm
yields false. -/
def alarmEnabledIn (als : List Alarm) (n : String) : Bool :=
  match FindAlarmByName als n with
  | none => false
  | some al => al.enabled

/-- Embedding of `AutoScale.Enabled` (src/unnamed/part_000, lines
273-284): the loop with early false returns is the conjunction over the
derived alarm names. -/
def AutoScale.Enabled (a : AutoScale) (als : List Alarm) : Bool :=
  a.alarms.all (alarmEnabledIn als)

/-- The concrete wizard input of the round-trip claim: name "api", no
process, metric "cpu", operator ">", value "80", aggregator "avg". -/
def roundTripSpec : AutoScale :=
  { name := "api"
    scaleUp :=
      { aggregator := "avg", metric := "cpu", operator := ">", value := "80",
        step := "10", wait := 30 }
    scaleDown := zeroScaleAction
    minUnits := 1
    process := "" }

set_option maxRecDepth 10000 in
/-- Claim C7: with no registered expression templates, the wizard's
scale-up alarm for the round-trip input has name "scale_up_api" and an
expression with every placeholder textually substituted and no brace (hence
no residual placeholder token) left. -/
theorem roundTrip_scale_up_alarm :
    (newScaleAction (fun _ => none) roundTripSpec "scale_up").name = "scale_up_api"
      ∧ (newScaleAction (fun _ => none) roundTripSpec "scale_up").expression =
        "cpu.aggregations.range.buckets[0].date.buckets[cpu.aggregations.range.buckets[0].date.buckets.length - 1].avg.value > 80"
      ∧ (newScaleAction (fun _ => none) roundTripSpec
          "scale_up").expression.data.contains (Char.ofNat 123) = false
      ∧ (newScaleAction (fun _ => none) roundTripSpec
          "scale_up").expression.data.contains (Char.ofNat 125) = false := by
  refine ⟨rfl, by decide, by decide, by decide⟩

/-- A concrete specification with a nonzero configured wait, separating the
stored alarm wait from the configured value. -/
def waitSampleSpec : AutoScale :=
  { name := "app"
    scaleUp :=
      { aggregator := "avg", metric := "cpu", operator := ">", value := "80",
        step := "1", wait := 2 }
    scaleDown :=
      { aggregator := "avg", metric := "cpu", operator := "<", value := "20",
        step := "1", wait := 2 }
    minUnits := 1
    process := "" }

/-- Counterexample to claim C5 as stated: the wizard does convert units.
With a configured wait of 2, the generated alarm's wait is 2000000000
(`action.Wait * time.Second`), not the configured value unchanged. -/
theorem wizard_wait_conversion_counterexample :
    (newScaleAction (fun _ => none) waitSampleSpec "scale_up").wait = 2000000000
      ∧ waitSampleSpec.scaleUp.wait = 2
      ∧ ¬ (newScaleAction (fun _ => none) waitSampleSpec "scale_up").wait =
          waitSampleSpec.scaleUp.wait := by
  refine ⟨by decide, rfl, by decide⟩

/-- Claim C5 as amended: for both generated alarms the `Envs` map is
exactly step, process (the target process, defaulting to "web"), and
aggregator (defaulting to "max"), and the alarm's wait is the configured
wait multiplied by `time.Second` (one billion nanoseconds) — the wizard
does perform this unit conversion.  The range hypotheses state that the
multiplication does not overflow int64. -/
theorem wizard_envs_and_wait (dsGet : String → Option String) (a : AutoScale)
    (hup_lo : minDuration ≤ a.scaleUp.wait * 1000000000)
    (hup_hi : a.scaleUp.wait * 1000000000 ≤ maxDuration)
    (hdown_lo : minDuration ≤ a.scaleDown.wait * 1000000000)
    (hdown_hi : a.scaleDown.wait * 1000000000 ≤ maxDuration) :
    (newScaleAction dsGet a "scale_up").envs =
        [("step", a.scaleUp.step),
         ("process", if a.process == "" then "web" else a.process),
         ("aggregator", if a.scaleUp.aggregator == "" then "max" else a.scaleUp.aggregator)]
      ∧ (newScaleAction dsGet a "scale_up").wait = a.scaleUp.wait * 1000000000
      ∧ (newScaleAction dsGet a "scale_down").envs =
        [("step", a.scaleDown.step),
         ("process", if a.process == "" then "web" else a.process),
         ("aggregator", if a.scaleDown.aggregator == "" then "max" else a.scaleDown.aggregator)]
      ∧ (newScaleAction dsGet a "scale_down").wait = a.scaleDown.wait * 1000000000 := by
  have wrap_id : ∀ x : Int, minDuration ≤ x → x ≤ maxDuration → int64Wrap x = x := by
    intro x h1 h2
    unfold int64Wrap
    unfold minDuration at h1
    unfold maxDuration at h2
    omega
  refine ⟨rfl, ?_, rfl, ?_⟩
  · show int64Wrap (a.scaleUp.wait * 1000000000) = a.scaleUp.wait * 1000000000
    exact wrap_id _ hup_lo hup_hi
  · show int64Wrap (a.scaleDown.wait * 1000000000) = a.scaleDown.wait * 1000000000
    exact wrap_id _ hdown_lo hdown_hi

theorem wizard_envs_and_wait_witness :
    (newScaleAction (fun _ => none) waitSampleSpec "scale_up").envs =
        [("step", waitSampleSpec.scaleUp.step),
         ("process", if waitSampleSpec.process == "" then "web" else waitSampleSpec.process),
         ("aggregator", if waitSampleSpec.scaleUp.aggregator == "" then "max"
           else waitSampleSpec.scaleUp.aggregator)]
      ∧ (newScaleAction (fun _ => none) waitSampleSpec "scale_up").wait =
        waitSampleSpec.scaleUp.wait * 1000000000
      ∧ (newScaleAction (fun _ => none) waitSampleSpec "scale_down").envs =
        [("step", waitSampleSpec.scaleDown.step),
         ("process", if waitSampleSpec.process == "" then "web" else waitSampleSpec.process),
         ("aggregator", if waitSampleSpec.scaleDown.aggregator == "" then "max"
           else waitSampleSpec.scaleDown.aggregator)]
      ∧ (newScaleAction (fun _ => none) waitSampleSpec "scale_down").wait =
        waitSampleSpec.scaleDown.wait * 1000000000 :=
  wizard_envs_and_wait (fun _ => none) waitSampleSpec
    (by decide) (by decide) (by decide) (by decide)

/-- Claim C8: when no custom expression template is registered for the
datasources involved (and the metric is not itself named "units"), the
scale-down alarm's datasource set is units-then-metric and its expression
is the substituted join of the units template and the metric template with
" && ", units part first; the scale-up alarm uses the metric datasource and
the metric template alone, with no units clause joined in. -/
theorem wizard_expression_composition (dsGet : String → Option String) (a : AutoScale)
    (hunits : dsGet "units" = none)
    (hdownds : dsGet a.scaleDown.metric = none)
    (hdownm : a.scaleDown.metric ≠ "units")
    (hupds : dsGet a.scaleUp.metric = none)
    (hupm : a.scaleUp.metric ≠ "units") :
    (newScaleAction dsGet a "scale_down").dataSources = ["units", a.scaleDown.metric]
      ∧ (newScaleAction dsGet a "scale_down").expression =
        Replace
          [("\x7baggregator\x7d", if a.scaleDown.aggregator == "" then "max" else a.scaleDown.aggregator),
           ("\x7boperator\x7d", a.scaleDown.operator),
           ("\x7bvalue\x7d", a.scaleDown.value),
           ("\x7bminUnits\x7d", toString a.minUnits),
           ("\x7bmetric\x7d", a.scaleDown.metric)]
          (unitsExpression ++ " && " ++ defaultExpression)
      ∧ (newScaleAction dsGet a "scale_up").dataSources = [a.scaleUp.metric]
      ∧ (newScaleAction dsGet a "scale_up").expression =
        Replace
          [("\x7baggregator\x7d", if a.scaleUp.aggregator == "" then "max" else a.scaleUp.aggregator),
           ("\x7boperator\x7d", a.scaleUp.operator),
           ("\x7bvalue\x7d", a.scaleUp.value),
           ("\x7bminUnits\x7d", toString a.minUnits),
           ("\x7bmetric\x7d", a.scaleUp.metric)]
          defaultExpression := by
  have hdm : (a.scaleDown.metric == "units") = false := by
    simpa using hdownm
  have hum : (a.scaleUp.metric == "units") = false := by
    simpa using hupm
  refine ⟨rfl, ?_, rfl, ?_⟩
  · show Replace _ (stringsJoin
      ([ "units", a.scaleDown.metric].map fun d =>
        match dsGet d with
        | none => if d == "units" then unitsExpression else defaultExpression
        | some t =>
          if t == "" then (if d == "units" then unitsExpression else defaultExpression)
          else t) " && ") = _
    rw [List.map_cons, List.map_cons, List.map_nil, hunits, hdownds]
    simp only [hdm]
    rfl
  · show Replace _ (stringsJoin
      ([a.scaleUp.metric].map fun d =>
        match dsGet d with
        | none => if d == "units" then unitsExpression else defaultExpression
        | some t =>
          if t == "" then (if d == "units" then unitsExpression else defaultExpression)
          else t) " && ") = _
    rw [List.map_cons, List.map_nil, hupds]
    simp only [hum]
    rfl

theorem wizard_expression_composition_witness :
    (newScaleAction (fun _ => none) waitSampleSpec "scale_down").dataSources =
        ["units", waitSampleSpec.scaleDown.metric]
      ∧ (newScaleAction (fun _ => none) waitSampleSpec "scale_down").expression =
        Replace
          [("\x7baggregator\x7d", if waitSampleSpec.scaleDown.aggregator == "" then "max"
             else waitSampleSpec.scaleDown.aggregator),
           ("\x7boperator\x7d", waitSampleSpec.scaleDown.operator),
           ("\x7bvalue\x7d", waitSampleSpec.scaleDown.value),
           ("\x7bminUnits\x7d", toString waitSampleSpec.minUnits),
           ("\x7bmetric\x7d", waitSampleSpec.scaleDown.metric)]
          (unitsExpression ++ " && " ++ defaultExpression)
      ∧ (newScaleAction (fun _ => none) waitSampleSpec "scale_up").dataSources =
        [waitSampleSpec.scaleUp.metric]
      ∧ (newScaleAction (fun _ => none) waitSampleSpec "scale_up").expression =
        Replace
          [("\x7baggregator\x7d", if waitSampleSpec.scaleUp.aggregator == "" then "max"
             else waitSampleSpec.scaleUp.aggregator),
           ("\x7boperator\x7d", waitSampleSpec.scaleUp.operator),
           ("\x7bvalue\x7d", waitSampleSpec.scaleUp.value),
           ("\x7bminUnits\x7d", toString waitSampleSpec.minUnits),
           ("\x7bmetric\x7d", waitSampleSpec.scaleUp.metric)]
          defaultExpression :=
  wizard_expression_composition (fun _ => none) waitSampleSpec rfl rfl
    (by decide) rfl (by decide)

/-- Claim C9: the specification's enabled state is computed, not stored
(the `AutoScale` record has no enabled field): `Enabled` is true exactly
when both alarms named by the scale-up/scale-down naming convention exist
in the alarm collection and are enabled. -/
theorem autoscale_enabled_derived (als : List Alarm) (a : AutoScale) :
    a.Enabled als = true ↔
      ((∃ u, FindAlarmByName als
            (if a.process == "" then "scale_up_" ++ a.name
             else "scale_up_" ++ a.name ++ "_" ++ a.process) = some u
          ∧ u.enabled = true)
        ∧ (∃ d, FindAlarmByName als
            (if a.process == "" then "scale_down_" ++ a.name
             else "scale_down_" ++ a.name ++ "_" ++ a.process) = some d
          ∧ d.enabled = true)) := by
  have key : ∀ n, alarmEnabledIn als n = true ↔
      ∃ u, FindAlarmByName als n = some u ∧ u.enabled = true := by
    intro n
    unfold alarmEnabledIn
    cases hf : FindAlarmByName als n with
    | none => simp
    | some al => simp [hf]
  by_cases hp : a.process = "" <;>
    simp [AutoScale.Enabled, AutoScale.alarms, hp, key]

/-- The clamping `New` and `Update` both apply to the incoming
specification (src/unnamed/part_000, lines 63-65 and 292-294): a
non-positive `MinUnits` becomes 1. -/
def clampSpec (a : AutoScale) : AutoScale :=
  if a.minUnits ≤ 0 then { a with minUnits := 1 } else a

/-- A concrete specification used to drive the failure path of `New`. -/
def halfCreateSpec : AutoScale :=
  { name := "x"
    scaleUp :=
      { aggregator := "avg", metric := "cpu", operator := ">", value := "80",
        step := "1", wait := 10 }
    scaleDown :=
      { aggregator := "avg", metric := "cpu", operator := "<", value := "20",
        step := "1", wait := 10 }
    minUnits := 1
    process := "" }

set_option maxRecDepth 10000 in
/-- Counterexample to claim C3 as stated: when creating the scale-down
alarm fails after the scale-up alarm was created, `New` does not remove the
first alarm.  With a validation that accepts only the scale-up alarm, the
final store holds exactly the scale-up alarm (and no wizard document), so
`New` does leave exactly one of the two alarms behind. -/
theorem new_half_configured_counterexample :
    ((New (fun _ => none) (fun al => al.name == "scale_up_x") halfCreateSpec
        { alarms := [], wizards := [] }).1.alarms.map (fun al => al.name) =
      ["scale_up_x"])
      ∧ (New (fun _ => none) (fun al => al.name == "scale_up_x") halfCreateSpec
          { alarms := [], wizards := [] }).2.isSome = true
      ∧ (New (fun _ => none) (fun al => al.name == "scale_up_x") halfCreateSpec
          { alarms := [], wizards := [] }).1.wizards = [] := by
  refine ⟨by decide, by decide, by decide⟩

/-- Claim C3 as amended: if the scale-up alarm is created and the
scale-down creation then fails, `New` returns the error with the scale-up
alarm still persisted (no rollback) and without inserting the
specification into the wizard collection. -/
theorem new_no_rollback (dsGet : String → Option String) (ok : Alarm → Bool)
    (a : AutoScale) (s : Store)
    (hup : ok (newScaleAction dsGet (clampSpec a) "scale_up") = true)
    (hdown : ok (newScaleAction dsGet (clampSpec a) "scale_down") = false) :
    (New dsGet ok a s).1 =
        { s with alarms := s.alarms ++ [newScaleAction dsGet (clampSpec a) "scale_up"] }
      ∧ (New dsGet ok a s).2.isSome = true := by
  simp only [clampSpec] at hup hdown
  simp [New, NewAlarmOp, hup, hdown, clampSpec]

theorem new_no_rollback_witness :
    (New (fun _ => none) (fun al => al.name == "scale_up_x") halfCreateSpec
        { alarms := [], wizards := [] }).1 =
        { ({ alarms := [], wizards := [] } : Store) with alarms :=
            ([] : List Alarm) ++
              [newScaleAction (fun _ => none) (clampSpec halfCreateSpec) "scale_up"] }
      ∧ (New (fun _ => none) (fun al => al.name == "scale_up_x") halfCreateSpec
          { alarms := [], wizards := [] }).2.isSome = true :=
  new_no_rollback (fun _ => none) (fun al => al.name == "scale_up_x")
    halfCreateSpec { alarms := [], wizards := [] } rfl rfl

/-- A concrete specification with a non-positive MinUnits. -/
def negativeMinUnitsSpec : AutoScale :=
  { name := "app2"
    scaleUp :=
      { aggregator := "avg", metric := "cpu", operator := ">", value := "80",
        step := "1", wait := 10 }
    scaleDown :=
      { aggregator := "avg", metric := "cpu", operator := "<", value := "20",
        step := "1", wait := 10 }
    minUnits := -3
    process := "w1" }

/-- Claim C10: both `New` and `Update` clamp a non-positive `MinUnits` to 1
before generating alarms (so the minUnits value substituted into every
generated scale-down expression is the string of the clamped value, at
least 1), and the specification persisted afterwards is the clamped one:
on success `New` stores the two alarms generated from the clamped
specification and inserts the clamped specification, and `Update` behaves
exactly as if called with the clamped specification. -/
theorem wizard_clamps_min_units (dsGet : String → Option String) (ok : Alarm → Bool)
    (a : AutoScale) (s : Store)
    (hup : ok (newScaleAction dsGet (clampSpec a) "scale_up") = true)
    (hdown : ok (newScaleAction dsGet (clampSpec a) "scale_down") = true) :
    1 ≤ (clampSpec a).minUnits
      ∧ New dsGet ok a s =
        ({ alarms := s.alarms ++
             [newScaleAction dsGet (clampSpec a) "scale_up",
              newScaleAction dsGet (clampSpec a) "scale_down"],
           wizards := s.wizards ++ [clampSpec a] }, none)
      ∧ Update dsGet ok a s = Update dsGet ok (clampSpec a) s := by
  refine ⟨?_, ?_, ?_⟩
  · unfold clampSpec
    split
    · simp
    · omega
  · simp only [clampSpec] at hup hdown
    simp [New, NewAlarmOp, hup, hdown, clampSpec]
  · by_cases h : a.minUnits ≤ 0 <;>
      simp [Update, clampSpec, h]

theorem wizard_clamps_min_units_witness :
    1 ≤ (clampSpec negativeMinUnitsSpec).minUnits
      ∧ New (fun _ => none) (fun _ => true) negativeMinUnitsSpec
          { alarms := [], wizards := [] } =
        ({ alarms := ([] : List Alarm) ++
             [newScaleAction (fun _ => none) (clampSpec negativeMinUnitsSpec) "scale_up",
              newScaleAction (fun _ => none) (clampSpec negativeMinUnitsSpec) "scale_down"],
           wizards := ([] : List AutoScale) ++ [clampSpec negativeMinUnitsSpec] }, none)
      ∧ Update (fun _ => none) (fun _ => true) negativeMinUnitsSpec
          { alarms := [], wizards := [] } =
        Update (fun _ => none) (fun _ => true) (clampSpec negativeMinUnitsSpec)
          { alarms := [], wizards := [] } :=
  wizard_clamps_min_units (fun _ => none) (fun _ => true) negativeMinUnitsSpec
    { alarms := [], wizards := [] } rfl rfl

/-- Modelled from the spec: the Action Dispatcher's reported outcome
(spec section 6): a success flag and an error message. -/
structure DispatchResult where
  successful : Bool
  errorMessage : String
deriving Repr, DecidableEq

/-- Modelled from the spec: one invocation of the Action Dispatcher, with
the alarm's action name, `Instance`, and `Envs` (spec section 4.4). -/
structure Invocation where
  actionName : String
  instanceName : String
  envs : List (String × String)
deriving Repr, DecidableEq

/-- Modelled from the spec: the event-creating `scaleIfNeeded` of the
alarm engine (alarm/alarm.go; only its tests, src/alarm/auto_scale_test.go,
are under src/, while src/alarm/auto_scale.go holds only an older variant
whose body is commented out).  One tick for one alarm per spec section
4.4: a disabled alarm is skipped; `Check()`'s result is `checkResult`; on
fire, an Event is created with the fired direction and `StartTime = now`,
the dispatcher is invoked with the alarm's action name, instance and envs,
and the same event is closed with `EndTime` set and `Successful`/`Error`
taken from the dispatcher result (also when the dispatch failed).  Returns
the event store after the tick and the dispatcher invocations made. -/
def scaleIfNeededEngine (al : Alarm) (checkResult : Except String Bool)
    (lookup : LookupResult) (now endTime : Int) (dispatch : DispatchResult)
    (events : List Event) : Except String (List Event × List Invocation) :=
  if al.enabled = false then .ok (events, [])
  else
    match checkResult with
    | .error e => .error e
    | .ok false => .ok (events, [])
    | .ok true =>
      match shouldWait lookup now al.wait with
      | .error e => .error e
      | .ok true => .ok (events, [])
      | .ok false =>
        let direction := al.actions.headD ""
        .ok (events ++
          [{ eventType := direction, startTime := now, endTime := endTime,
             successful := dispatch.successful, error := dispatch.errorMessage }],
          [{ actionName := direction, instanceName := al.instanceName,
             envs := al.envs }])

/-- Claim C4: for an enabled alarm whose condition holds and whose cooldown
is clear, one tick appends exactly one Event, typed with the fired
direction, started at `now` and closed at the dispatcher-return time with
`Successful` and `Error` taken from the dispatcher result (so a failed
dispatch still yields a closed event with `Successful = false` and the
error populated), and invokes the dispatcher once with the alarm's action
name, instance and envs. -/
theorem fire_sequence (al : Alarm) (lookup : LookupResult) (now endTime : Int)
    (dispatch : DispatchResult) (events : List Event)
    (hen : al.enabled = true)
    (hwait : shouldWait lookup now al.wait = .ok false) :
    scaleIfNeededEngine al (.ok true) lookup now endTime dispatch events =
      .ok (events ++
        [{ eventType := al.actions.headD "", startTime := now, endTime := endTime,
           successful := dispatch.successful, error := dispatch.errorMessage }],
        [{ actionName := al.actions.headD "", instanceName := al.instanceName,
           envs := al.envs }]) := by
  simp [scaleIfNeededEngine, hen, hwait]

/-- A concrete enabled alarm driving the fire sequence. -/
def firingAlarm : Alarm :=
  { name := "scale_up_app"
    expression := "cpu > 80"
    enabled := true
    wait := 30000000000
    actions := ["scale_up"]
    instanceName := "app"
    dataSources := ["cpu"]
    envs := [("step", "1"), ("process", "web"), ("aggregator", "max")] }

theorem fire_sequence_witness :
    scaleIfNeededEngine firingAlarm (.ok true) .notFound 9223372036854775807
        9223372036854775807 { successful := false, errorMessage := "connection refused" }
        [] =
      .ok (([] : List Event) ++
        [{ eventType := firingAlarm.actions.headD "",
           startTime := 9223372036854775807, endTime := 9223372036854775807,
           successful := false, error := "connection refused" }],
        [{ actionName := firingAlarm.actions.headD "",
           instanceName := firingAlarm.instanceName,
           envs := firingAlarm.envs }]) :=
  fire_sequence firingAlarm .notFound 9223372036854775807 9223372036854775807
    { successful := false, errorMessage := "connection refused" } [] rfl rfl

end Tsuru
